import Mathlib

/-!
Shallow embedding of `bin2svg` (`src/bin2svg/converter.py`), a converter
from boolean matrices to SVG strings, together with theorems checking the
specification's claims against it.

The embedding models the single entry point `matrix_to_svg` as a pure
function `List (List Bool) → … → Except String String`: a Python
`ValueError` becomes `Except.error`, a returned SVG string becomes
`Except.ok`.  Matrix access through the `np.pad`-ded copy becomes the
bounds-checked lookup `cellAt`, which returns `false` outside the grid.
Python float values of the form `k/2` (the only floats the code produces)
are rendered by `halfStr`, matching `f"{…}"` on such a float exactly for
every value the code can build from machine-size inputs.
-/

set_option maxRecDepth 100000

namespace Bin2Svg

/-- Lookup of a grid cell at integer coordinates, with out-of-grid
coordinates reading as `false`.  This models the `np.pad(matrix, 1, …,
constant_values=False)` border used by the converter: any neighbor that
falls outside `matrix` is `False`. -/
def cellAt (m : List (List Bool)) (i j : Int) : Bool :=
  if 0 ≤ i ∧ 0 ≤ j then ((((m.get? i.toNat).getD []).get? j.toNat).getD false)
  else false

/-- The four quadrant flags of one cell: `quadrants_matrix[i, j]` in the
code, a 2×2 boolean block.  `q00` is top-left, `q01` top-right, `q10`
bottom-left, `q11` bottom-right. -/
structure Quad where
  q00 : Bool
  q01 : Bool
  q10 : Bool
  q11 : Bool
deriving DecidableEq

/-- The per-cell corner classification (step 3 of `matrix_to_svg`).

For a `True` cell all quadrants start `True` and a quadrant is cleared
when its two axis neighbors (read from the padded matrix) are both
`False`; so the flag equals the disjunction of those two neighbors.
For a `False` cell all quadrants start `False` and a quadrant is set
when the two axis neighbors and the diagonal neighbor at that corner are
all `True`. -/
def quadrantsAt (m : List (List Bool)) (i j : Nat) : Quad :=
  let top := cellAt m ((i : Int) - 1) (j : Int)
  let left := cellAt m (i : Int) ((j : Int) - 1)
  let right := cellAt m (i : Int) ((j : Int) + 1)
  let bottom := cellAt m ((i : Int) + 1) (j : Int)
  let tl := cellAt m ((i : Int) - 1) ((j : Int) - 1)
  let tr := cellAt m ((i : Int) - 1) ((j : Int) + 1)
  let bl := cellAt m ((i : Int) + 1) ((j : Int) - 1)
  let br := cellAt m ((i : Int) + 1) ((j : Int) + 1)
  if cellAt m (i : Int) (j : Int) then
    { q00 := top || left
      q01 := top || right
      q10 := left || bottom
      q11 := right || bottom }
  else
    { q00 := tl && top && left
      q01 := top && tr && right
      q10 := left && bl && bottom
      q11 := right && br && bottom }

/-- A corner of a cell. -/
inductive Corner where
  | tl
  | tr
  | br
  | bl
deriving DecidableEq

/-- One drawing primitive of the output, before rendering to text:
the optional background rectangle, a half-size quadrant square of an
"on" cell (`qi, qj` index the quadrant as in `quadrants_matrix`), a
convex quarter-disc fillet of an "on" cell, or an inverted (concave)
quarter-disc of an "off" cell. -/
inductive Prim where
  | background (color : String)
  | quadSquare (i j qi qj : Nat)
  | fillet (i j : Nat) (c : Corner)
  | concave (i j : Nat) (c : Corner)
deriving DecidableEq

/-- The primitives one cell contributes, in the order the code appends
them (step 5 of `matrix_to_svg`): for a `True` cell the quadrant squares
for quadrants (0,0), (0,1), (1,0), (1,1) that are set, then fillets for
the cleared quadrants in order TL, TR, BR, BL; for a `False` cell the
concave arcs for set quadrants in order BR, BL, TR, TL. -/
def cellPrims (m : List (List Bool)) (i j : Nat) : List Prim :=
  let q := quadrantsAt m i j
  if cellAt m (i : Int) (j : Int) then
    ((if q.q00 then [Prim.quadSquare i j 0 0] else []) ++
     (if q.q01 then [Prim.quadSquare i j 0 1] else []) ++
     (if q.q10 then [Prim.quadSquare i j 1 0] else []) ++
     (if q.q11 then [Prim.quadSquare i j 1 1] else [])) ++
    ((if q.q00 then [] else [Prim.fillet i j Corner.tl]) ++
     (if q.q01 then [] else [Prim.fillet i j Corner.tr]) ++
     (if q.q11 then [] else [Prim.fillet i j Corner.br]) ++
     (if q.q10 then [] else [Prim.fillet i j Corner.bl]))
  else
    (if q.q11 then [Prim.concave i j Corner.br] else []) ++
    (if q.q10 then [Prim.concave i j Corner.bl] else []) ++
    (if q.q01 then [Prim.concave i j Corner.tr] else []) ++
    (if q.q00 then [Prim.concave i j Corner.tl] else [])

/-- Row-major index sequence over an `h × w` grid, as iterated by
`np.ndindex(matrix.shape)`. -/
def rowMajorIdx (h w : Nat) : List (Nat × Nat) :=
  (List.range h).flatMap fun i => (List.range w).map fun j => (i, j)

/-- The cell primitives accumulated over the whole grid by the drawing
loop: the loop appends each cell's primitives to the growing element
list, i.e. a left fold over the row-major index sequence. -/
def gridPrims (m : List (List Bool)) (h w : Nat) : List Prim :=
  (rowMajorIdx h w).foldl (fun acc ij => acc ++ cellPrims m ij.1 ij.2) []

/-- Decimal rendering of the Python float `k / 2` (`f"{k/2}"`): Python's
`repr` of a float is its shortest exact decimal, which for a half-integer
is the integer part followed by `.0` or `.5`. -/
def halfStr (k : Nat) : String :=
  if k % 2 == 0 then toString (k / 2) ++ ".0" else toString (k / 2) ++ ".5"

/-- Append an SVG fill attribute and element terminator to the geometry
part of an element, as every f-string in the emitter does:
`… fill="{color}" />`. -/
def withFill (body fill : String) : String :=
  body ++ " fill=\"" ++ fill ++ "\" />"

/-- Text of one primitive, exactly as the f-strings of step 5 produce it
(`x = j * cell_size`, `y = i * cell_size`; a Python expression of float
type such as `x + cell_size/2` prints with a decimal point, an int
expression such as `x` prints without). -/
def renderPrim (cs : Nat) (onColor : String) : Prim → String
  | Prim.background c =>
      withFill "<rect width=\"100%\" height=\"100%\"" c
  | Prim.quadSquare i j qi qj =>
      let x := j * cs
      let y := i * cs
      withFill (s!"<rect x=\"{halfStr (2*x + qj*cs)}\" y=\"{halfStr (2*y + qi*cs)}\" width=\"{halfStr cs}\" height=\"{halfStr cs}\"") onColor
  | Prim.fillet i j c =>
      let x := j * cs
      let y := i * cs
      match c with
      | Corner.tl =>
          withFill (s!"<path d=\"M{halfStr (2*x + cs)},{halfStr (2*y + cs)} L{x},{halfStr (2*y + cs)} A{halfStr cs},{halfStr cs} 0 0 1 {halfStr (2*x + cs)},{y} Z\"") onColor
      | Corner.tr =>
          withFill (s!"<path d=\"M{halfStr (2*x + cs)},{halfStr (2*y + cs)} L{halfStr (2*x + cs)},{y} A{halfStr cs},{halfStr cs} 0 0 1 {x + cs},{halfStr (2*y + cs)} Z\"") onColor
      | Corner.br =>
          withFill (s!"<path d=\"M{halfStr (2*x + cs)},{halfStr (2*y + cs)} L{x + cs},{halfStr (2*y + cs)} A{halfStr cs},{halfStr cs} 0 0 1 {halfStr (2*x + cs)},{y + cs} Z\"") onColor
      | Corner.bl =>
          withFill (s!"<path d=\"M{halfStr (2*x + cs)},{halfStr (2*y + cs)} L{halfStr (2*x + cs)},{y + cs} A{halfStr cs},{halfStr cs} 0 0 1 {x},{halfStr (2*y + cs)} Z\"") onColor
  | Prim.concave i j c =>
      let x := j * cs
      let y := i * cs
      match c with
      | Corner.br =>
          withFill (s!"<path d=\"M{x + cs},{halfStr (2*y + cs)} V{y + cs} H{halfStr (2*x + cs)} A{halfStr cs},{halfStr cs} 0 0 0 {x + cs},{halfStr (2*y + cs)} Z\"") onColor
      | Corner.bl =>
          withFill (s!"<path d=\"M{x},{halfStr (2*y + cs)} V{y + cs} H{halfStr (2*x + cs)} A{halfStr cs},{halfStr cs} 0 0 1 {x},{halfStr (2*y + cs)} Z\"") onColor
      | Corner.tr =>
          withFill (s!"<path d=\"M{x + cs},{halfStr (2*y + cs)} V{y} H{halfStr (2*x + cs)} A{halfStr cs},{halfStr cs} 0 0 1 {x + cs},{halfStr (2*y + cs)} Z\"") onColor
      | Corner.tl =>
          withFill (s!"<path d=\"M{x},{halfStr (2*y + cs)} V{y} H{halfStr (2*x + cs)} A{halfStr cs},{halfStr cs} 0 0 0 {x},{halfStr (2*y + cs)} Z\"") onColor

/-- The opening `<svg …>` declaration with computed pixel width and
height and a matching viewBox. -/
def svgHeader (w h : Nat) : String :=
  "<svg xmlns=\"http://www.w3.org/2000/svg\" width=\"" ++ toString w ++
    "\" height=\"" ++ toString h ++ "\" viewBox=\"0 0 " ++ toString w ++
    " " ++ toString h ++ "\">"

/-- `"\n".join(elements)`. -/
def pyJoin (sep : String) : List String → String
  | [] => ""
  | [a] => a
  | a :: b :: rest => a ++ sep ++ pyJoin sep (b :: rest)

/-- `True` iff every row has the length of the first row.  `np.asarray`
builds a 2-D array exactly for such nested lists and raises a
`ValueError` (inhomogeneous shape) otherwise. -/
def rectangular (m : List (List Bool)) : Bool :=
  m.all fun r => r.length == (m.headD []).length

/-- The message of the `ValueError` that `np.asarray` raises on a ragged
nested list. -/
def raggedError : String :=
  "setting an array element with a sequence. The requested array has an inhomogeneous shape"

/-- The message of the `ValueError` that `matrix_to_svg` raises on an
empty matrix. -/
def emptyError : String :=
  "Matrix must be non-empty and contain at least one cell."

/-- The complete primitive list of one conversion: the background
rectangle first when `off_color` is given, then the cells' primitives in
row-major order. -/
def svgPrims (m : List (List Bool)) (off_color : Option String) : List Prim :=
  (match off_color with
   | some c => [Prim.background c]
   | none => []) ++ gridPrims m m.length (m.headD []).length

/-- `matrix_to_svg(matrix, cell_size, on_color, off_color, round)`.

`np.asarray` raises on a ragged input; then the size check raises on an
empty matrix; then the SVG is assembled: header, optional background
rectangle, the cells' primitives in row-major order, closing tag, joined
with newlines.  The `round` parameter is accepted and, as in the source,
never read. -/
def matrix_to_svg (matrix : List (List Bool)) (cell_size : Nat)
    (on_color : String) (off_color : Option String) (round : Bool) :
    Except String String :=
  if rectangular matrix then
    let height := matrix.length
    let width := (matrix.headD []).length
    if height * width == 0 || height == 0 || width == 0 then
      Except.error emptyError
    else
      Except.ok (pyJoin "\n"
        (svgHeader (width * cell_size) (height * cell_size) ::
          ((svgPrims matrix off_color).map (renderPrim cell_size on_color) ++
            ["</svg>"])))
  else
    Except.error raggedError

/-- Number of occurrences of `pat` as a substring starting at each
position of `s` (for the patterns used here, which cannot overlap
themselves, this agrees with Python's `str.count`). -/
def countOccsAux (pat : List Char) : List Char → Nat
  | [] => 0
  | c :: rest =>
      (if pat.isPrefixOf (c :: rest) then 1 else 0) + countOccsAux pat rest

/-- Substring occurrence count on strings. -/
def countOccs (pat s : String) : Nat :=
  countOccsAux pat.toList s.toList

/-- `True` exactly for the background primitive. -/
def isBackgroundP : Prim → Bool
  | Prim.background _ => true
  | _ => false

/-- `True` exactly for a quadrant square primitive. -/
def isQuadSquareP : Prim → Bool
  | Prim.quadSquare _ _ _ _ => true
  | _ => false

/-- `True` exactly for a convex fillet primitive. -/
def isFilletP : Prim → Bool
  | Prim.fillet _ _ _ => true
  | _ => false

/-- The grid of the spec's rounding-mode scenario: a plus shape. -/
def plusGrid : List (List Bool) :=
  [[false, true, false], [true, true, true], [false, true, false]]

/-! ## Helper lemmas -/

theorem foldl_append_eq_flatMap {α β : Type} (l : List α) (f : α → List β)
    (acc : List β) :
    l.foldl (fun a x => a ++ f x) acc = acc ++ l.flatMap f := by
  induction l generalizing acc with
  | nil => simp
  | cons x xs ih => simp [ih, List.append_assoc]

theorem gridPrims_eq_flatMap (m : List (List Bool)) (h w : Nat) :
    gridPrims m h w =
      (rowMajorIdx h w).flatMap fun ij => cellPrims m ij.1 ij.2 := by
  unfold gridPrims
  rw [foldl_append_eq_flatMap]
  rfl

theorem pyJoin_cons (sep a : String) (l : List String) (h : l ≠ []) :
    pyJoin sep (a :: l) = a ++ sep ++ pyJoin sep l := by
  cases l with
  | nil => exact absurd rfl h
  | cons b rest => rfl

theorem cellPrims_not_background (m : List (List Bool)) (i j : Nat) :
    ∀ p ∈ cellPrims m i j, isBackgroundP p = false := by
  intro p hp
  simp only [cellPrims] at hp
  split at hp <;> split_ifs at hp <;>
    simp only [List.append_assoc, List.singleton_append, List.nil_append,
      List.append_nil, List.cons_append] at hp <;>
    fin_cases hp <;> rfl

theorem renderPrim_of_not_background (cs : Nat) (oc : String) (p : Prim)
    (h : isBackgroundP p = false) :
    ∃ body, renderPrim cs oc p = withFill body oc := by
  cases p with
  | background c => simp [isBackgroundP] at h
  | quadSquare i j qi qj => exact ⟨_, rfl⟩
  | fillet i j c => cases c <;> exact ⟨_, rfl⟩
  | concave i j c => cases c <;> exact ⟨_, rfl⟩

/-! ## Claims -/

/-- C3: for every valid grid and every "on" cell, a corner is classified
rounded-convex (its quadrant flag cleared) iff its two axis-adjacent
neighbors are both "off" — top-left iff top and left are off, top-right
iff top and right are off, bottom-right iff bottom and right are off,
bottom-left iff bottom and left are off — where a neighbor outside the
grid counts as "off" (`cellAt` of an out-of-grid coordinate); all other
corners of an "on" cell keep the filled/square classification. -/
theorem C3_on_cell_corner_classification (m : List (List Bool)) (i j : Nat)
    (hrect : rectangular m = true) (hi : i < m.length)
    (hj : j < (m.headD []).length)
    (hon : cellAt m (i : Int) (j : Int) = true) :
    ((quadrantsAt m i j).q00 = false ↔
      (cellAt m ((i : Int) - 1) (j : Int) = false ∧
        cellAt m (i : Int) ((j : Int) - 1) = false)) ∧
    ((quadrantsAt m i j).q01 = false ↔
      (cellAt m ((i : Int) - 1) (j : Int) = false ∧
        cellAt m (i : Int) ((j : Int) + 1) = false)) ∧
    ((quadrantsAt m i j).q11 = false ↔
      (cellAt m ((i : Int) + 1) (j : Int) = false ∧
        cellAt m (i : Int) ((j : Int) + 1) = false)) ∧
    ((quadrantsAt m i j).q10 = false ↔
      (cellAt m ((i : Int) + 1) (j : Int) = false ∧
        cellAt m (i : Int) ((j : Int) - 1) = false)) := by
  simp [quadrantsAt, hon, Bool.or_eq_false_iff, and_comm]

/-- Witness for C3 at the grid `[[true]]`, cell (0, 0). -/
theorem C3_witness :
    cellAt [[true]] 0 0 = true ∧
    (((quadrantsAt [[true]] 0 0).q00 = false ↔
      (cellAt [[true]] (((0 : Nat) : Int) - 1) ((0 : Nat) : Int) = false ∧
        cellAt [[true]] ((0 : Nat) : Int) (((0 : Nat) : Int) - 1) = false)) ∧
    ((quadrantsAt [[true]] 0 0).q01 = false ↔
      (cellAt [[true]] (((0 : Nat) : Int) - 1) ((0 : Nat) : Int) = false ∧
        cellAt [[true]] ((0 : Nat) : Int) (((0 : Nat) : Int) + 1) = false)) ∧
    ((quadrantsAt [[true]] 0 0).q11 = false ↔
      (cellAt [[true]] (((0 : Nat) : Int) + 1) ((0 : Nat) : Int) = false ∧
        cellAt [[true]] ((0 : Nat) : Int) (((0 : Nat) : Int) + 1) = false)) ∧
    ((quadrantsAt [[true]] 0 0).q10 = false ↔
      (cellAt [[true]] (((0 : Nat) : Int) + 1) ((0 : Nat) : Int) = false ∧
        cellAt [[true]] ((0 : Nat) : Int) (((0 : Nat) : Int) - 1) = false))) :=
  ⟨by decide,
    C3_on_cell_corner_classification [[true]] 0 0 (by decide) (by decide)
      (by decide) (by decide)⟩

/-- C4: for every valid grid and every "off" cell, a corner is classified
filled-concave (its quadrant flag set) iff the two axis-adjacent
neighbors and the diagonal neighbor at that corner are all "on"
(out-of-grid neighbors counting as "off"); and an "off" cell's corner
contributes a concave primitive exactly when its flag is set — otherwise
the corner carries no geometry. -/
theorem C4_off_cell_corner_classification (m : List (List Bool)) (i j : Nat)
    (hrect : rectangular m = true) (hi : i < m.length)
    (hj : j < (m.headD []).length)
    (hoff : cellAt m (i : Int) (j : Int) = false) :
    ((quadrantsAt m i j).q00 = true ↔
      (cellAt m ((i : Int) - 1) (j : Int) = true ∧
        cellAt m (i : Int) ((j : Int) - 1) = true ∧
        cellAt m ((i : Int) - 1) ((j : Int) - 1) = true)) ∧
    ((quadrantsAt m i j).q01 = true ↔
      (cellAt m ((i : Int) - 1) (j : Int) = true ∧
        cellAt m (i : Int) ((j : Int) + 1) = true ∧
        cellAt m ((i : Int) - 1) ((j : Int) + 1) = true)) ∧
    ((quadrantsAt m i j).q11 = true ↔
      (cellAt m ((i : Int) + 1) (j : Int) = true ∧
        cellAt m (i : Int) ((j : Int) + 1) = true ∧
        cellAt m ((i : Int) + 1) ((j : Int) + 1) = true)) ∧
    ((quadrantsAt m i j).q10 = true ↔
      (cellAt m ((i : Int) + 1) (j : Int) = true ∧
        cellAt m (i : Int) ((j : Int) - 1) = true ∧
        cellAt m ((i : Int) + 1) ((j : Int) - 1) = true)) ∧
    ((Prim.concave i j Corner.tl ∈ cellPrims m i j) ↔
      (quadrantsAt m i j).q00 = true) ∧
    ((Prim.concave i j Corner.tr ∈ cellPrims m i j) ↔
      (quadrantsAt m i j).q01 = true) ∧
    ((Prim.concave i j Corner.br ∈ cellPrims m i j) ↔
      (quadrantsAt m i j).q11 = true) ∧
    ((Prim.concave i j Corner.bl ∈ cellPrims m i j) ↔
      (quadrantsAt m i j).q10 = true) := by
  refine ⟨?_, ?_, ?_, ?_, ?_, ?_, ?_, ?_⟩
  · simp only [quadrantsAt, hoff]
    simp [Bool.and_eq_true]
    tauto
  · simp only [quadrantsAt, hoff]
    simp [Bool.and_eq_true]
    tauto
  · simp only [quadrantsAt, hoff]
    simp [Bool.and_eq_true]
    tauto
  · simp only [quadrantsAt, hoff]
    simp [Bool.and_eq_true]
    tauto
  · simp only [cellPrims, hoff]
    simp only [Bool.false_eq_true, if_false]
    split_ifs <;> simp_all
  · simp only [cellPrims, hoff]
    simp only [Bool.false_eq_true, if_false]
    split_ifs <;> simp_all
  · simp only [cellPrims, hoff]
    simp only [Bool.false_eq_true, if_false]
    split_ifs <;> simp_all
  · simp only [cellPrims, hoff]
    simp only [Bool.false_eq_true, if_false]
    split_ifs <;> simp_all

/-- Witness for C4 at the grid `[[true, true], [true, false]]`,
"off" cell (1, 1), whose top-left corner is concave. -/
theorem C4_witness :
    cellAt [[true, true], [true, false]] 1 1 = false ∧
    (((quadrantsAt [[true, true], [true, false]] 1 1).q00 = true ↔
      (cellAt [[true, true], [true, false]] (((1 : Nat) : Int) - 1) ((1 : Nat) : Int) = true ∧
        cellAt [[true, true], [true, false]] ((1 : Nat) : Int) (((1 : Nat) : Int) - 1) = true ∧
        cellAt [[true, true], [true, false]] (((1 : Nat) : Int) - 1) (((1 : Nat) : Int) - 1) = true)) ∧
    ((quadrantsAt [[true, true], [true, false]] 1 1).q01 = true ↔
      (cellAt [[true, true], [true, false]] (((1 : Nat) : Int) - 1) ((1 : Nat) : Int) = true ∧
        cellAt [[true, true], [true, false]] ((1 : Nat) : Int) (((1 : Nat) : Int) + 1) = true ∧
        cellAt [[true, true], [true, false]] (((1 : Nat) : Int) - 1) (((1 : Nat) : Int) + 1) = true)) ∧
    ((quadrantsAt [[true, true], [true, false]] 1 1).q11 = true ↔
      (cellAt [[true, true], [true, false]] (((1 : Nat) : Int) + 1) ((1 : Nat) : Int) = true ∧
        cellAt [[true, true], [true, false]] ((1 : Nat) : Int) (((1 : Nat) : Int) + 1) = true ∧
        cellAt [[true, true], [true, false]] (((1 : Nat) : Int) + 1) (((1 : Nat) : Int) + 1) = true)) ∧
    ((quadrantsAt [[true, true], [true, false]] 1 1).q10 = true ↔
      (cellAt [[true, true], [true, false]] (((1 : Nat) : Int) + 1) ((1 : Nat) : Int) = true ∧
        cellAt [[true, true], [true, false]] ((1 : Nat) : Int) (((1 : Nat) : Int) - 1) = true ∧
        cellAt [[true, true], [true, false]] (((1 : Nat) : Int) + 1) (((1 : Nat) : Int) - 1) = true)) ∧
    ((Prim.concave 1 1 Corner.tl ∈ cellPrims [[true, true], [true, false]] 1 1) ↔
      (quadrantsAt [[true, true], [true, false]] 1 1).q00 = true) ∧
    ((Prim.concave 1 1 Corner.tr ∈ cellPrims [[true, true], [true, false]] 1 1) ↔
      (quadrantsAt [[true, true], [true, false]] 1 1).q01 = true) ∧
    ((Prim.concave 1 1 Corner.br ∈ cellPrims [[true, true], [true, false]] 1 1) ↔
      (quadrantsAt [[true, true], [true, false]] 1 1).q11 = true) ∧
    ((Prim.concave 1 1 Corner.bl ∈ cellPrims [[true, true], [true, false]] 1 1) ↔
      (quadrantsAt [[true, true], [true, false]] 1 1).q10 = true)) :=
  ⟨by decide,
    C4_off_cell_corner_classification [[true, true], [true, false]] 1 1
      (by decide) (by decide) (by decide) (by decide)⟩

/-- C5: `matrix_to_svg` fails with the empty-input error when the grid
has zero rows or the first row has zero columns, fails with the
ragged-input error when rows have differing lengths, and an error case
never returns an output document — the result is an `Except.error`, so
no partial output reaches the caller. -/
theorem C5_validation_errors (m : List (List Bool)) (cs : Nat) (oc : String)
    (bg : Option String) (r : Bool) :
    (rectangular m = false →
      matrix_to_svg m cs oc bg r = Except.error raggedError) ∧
    (rectangular m = true → (m.length = 0 ∨ (m.headD []).length = 0) →
      matrix_to_svg m cs oc bg r = Except.error emptyError) ∧
    (∀ s, matrix_to_svg m cs oc bg r = Except.ok s →
      rectangular m = true ∧ m.length ≠ 0 ∧ (m.headD []).length ≠ 0) := by
  refine ⟨?_, ?_, ?_⟩
  · intro h
    simp only [matrix_to_svg]
    rw [if_neg]
    simp [h]
  · intro h hempty
    simp only [matrix_to_svg]
    rw [if_pos h]
    split_ifs with hc
    · rfl
    · exact absurd (by rcases hempty with h0 | h0 <;> rw [h0] <;> simp) hc
  · intro s hs
    simp only [matrix_to_svg] at hs
    by_cases hrect : rectangular m = true
    · rw [if_pos hrect] at hs
      split at hs
      next hc => exact Except.noConfusion hs
      next hc =>
        refine ⟨hrect, ?_, ?_⟩
        · intro h0
          exact hc (by rw [h0]; simp)
        · intro h1
          exact hc (by rw [h1]; simp)
    · rw [if_neg hrect] at hs
      exact Except.noConfusion hs

/-- Witness for C5 at the ragged grid `[[true, false], [false]]` and the
empty grids `[]` and `[[]]`. -/
theorem C5_witness :
    rectangular [[true, false], [false]] = false ∧
    matrix_to_svg [[true, false], [false]] 10 "#000" none false =
      Except.error raggedError ∧
    matrix_to_svg [] 10 "#000" none false = Except.error emptyError ∧
    matrix_to_svg [[]] 10 "#000" none false = Except.error emptyError :=
  ⟨by decide,
    (C5_validation_errors [[true, false], [false]] 10 "#000" none false).1
      (by decide),
    (C5_validation_errors [] 10 "#000" none false).2.1 (by decide)
      (Or.inl (by decide)),
    (C5_validation_errors [[]] 10 "#000" none false).2.1 (by decide)
      (Or.inr (by decide))⟩

/-- C6: for every valid grid and cell size the returned document is the
header — declaring width = columns × cell_size, height = rows ×
cell_size, and a viewBox of those same dimensions (see `svgHeader`) —
followed by the rendered primitives and the closing tag. -/
theorem C6_canvas_dimensions (m : List (List Bool)) (cs : Nat) (oc : String)
    (bg : Option String) (r : Bool) (hrect : rectangular m = true)
    (hrows : m.length ≠ 0) (hcols : (m.headD []).length ≠ 0) :
    matrix_to_svg m cs oc bg r =
      Except.ok (svgHeader ((m.headD []).length * cs) (m.length * cs) ++
        "\n" ++ pyJoin "\n"
          ((svgPrims m bg).map (renderPrim cs oc) ++ ["</svg>"])) := by
  simp only [matrix_to_svg]
  rw [if_pos hrect]
  split_ifs with hc
  · exfalso
    simp only [Bool.or_eq_true, beq_iff_eq, Nat.mul_eq_zero] at hc
    tauto
  · rw [pyJoin_cons]
    · cases h : (svgPrims m bg).map (renderPrim cs oc) <;> simp

/-- Witness for C6 at the grid `[[true]]` with cell size 10. -/
theorem C6_witness :
    rectangular [[true]] = true ∧
    matrix_to_svg [[true]] 10 "#000" none false =
      Except.ok (svgHeader ((([[true]] : List (List Bool)).headD []).length * 10)
          (([[true]] : List (List Bool)).length * 10) ++
        "\n" ++ pyJoin "\n"
          ((svgPrims [[true]] none).map (renderPrim 10 "#000") ++ ["</svg>"])) :=
  ⟨by decide,
    C6_canvas_dimensions [[true]] 10 "#000" none false (by decide) (by decide)
      (by decide)⟩

/-- C7: the background rectangle: when an `off_color` is given the
primitive list opens with exactly one background rectangle — no cell
primitive is a background rectangle — before all cell primitives, and
its text takes the `off_color` as fill; with no `off_color` no
background primitive exists; every non-background primitive's text takes
the configured `on_color` as fill. -/
theorem C7_background_rectangle (m : List (List Bool)) (cs : Nat)
    (oc : String) (hrect : rectangular m = true) (hrows : m.length ≠ 0)
    (hcols : (m.headD []).length ≠ 0) :
    (∀ c, svgPrims m (some c) =
      Prim.background c :: gridPrims m m.length (m.headD []).length) ∧
    (svgPrims m none = gridPrims m m.length (m.headD []).length) ∧
    ((gridPrims m m.length (m.headD []).length).all
      (fun p => !isBackgroundP p) = true) ∧
    (∀ c, renderPrim cs oc (Prim.background c) =
      withFill "<rect width=\"100%\" height=\"100%\"" c) ∧
    (∀ p, isBackgroundP p = false →
      ∃ body, renderPrim cs oc p = withFill body oc) := by
  refine ⟨fun c => rfl, rfl, ?_, fun c => rfl,
    renderPrim_of_not_background cs oc⟩
  rw [List.all_eq_true]
  intro p hp
  rw [gridPrims_eq_flatMap, List.mem_flatMap] at hp
  obtain ⟨ij, _, hpij⟩ := hp
  simp [cellPrims_not_background m ij.1 ij.2 p hpij]

/-- Witness for C7 at the grid `[[true]]` with `off_color = "white"`. -/
theorem C7_witness :
    rectangular [[true]] = true ∧
    svgPrims [[true]] (some "white") =
      Prim.background "white" ::
        gridPrims [[true]] ([[true]] : List (List Bool)).length
          (([[true]] : List (List Bool)).headD []).length ∧
    (gridPrims [[true]] ([[true]] : List (List Bool)).length
        (([[true]] : List (List Bool)).headD []).length).all
      (fun p => !isBackgroundP p) = true ∧
    renderPrim 10 "#000" (Prim.background "white") =
      withFill "<rect width=\"100%\" height=\"100%\"" "white" :=
  ⟨by decide,
    (C7_background_rectangle [[true]] 10 "#000" (by decide) (by decide)
        (by decide)).1 "white",
    (C7_background_rectangle [[true]] 10 "#000" (by decide) (by decide)
        (by decide)).2.2.1,
    (C7_background_rectangle [[true]] 10 "#000" (by decide) (by decide)
        (by decide)).2.2.2.1 "white"⟩

/-- C1: the claim says that with `round = False` (the default) corner
classification is ignored and each "on" cell yields exactly one
full-size filled square, so `[[true]]` should yield one rectangle
primitive and no fillet paths.  The code never reads `round` and always
applies the rounding pipeline: on `[[true]]` with default options it
emits 0 rectangle primitives and 4 fillet paths. -/
theorem C1_single_cell_rounds_despite_flag :
    (matrix_to_svg [[true]] 10 "#000" none false).map (countOccs "<rect") =
      Except.ok 0 ∧
    (matrix_to_svg [[true]] 10 "#000" none false).map (countOccs "<path") =
      Except.ok 4 :=
  ⟨rfl, rfl⟩

/-- C2: the claim (and the repository's own test
`test_svg_output_without_background`) expects exactly 2 rectangle
primitives for `[[true, false], [false, true]]` with `cell_size = 10`,
`on_color = "#ff0000"`, rounding disabled.  The code emits 0 rectangles
and 8 fillet paths on this input; the declared `width="20"` and
`height="20"` do appear once each. -/
theorem C2_diagonal_grid_has_no_rects :
    (matrix_to_svg [[true, false], [false, true]] 10 "#ff0000" none
        false).map (countOccs "<rect") = Except.ok 0 ∧
    (matrix_to_svg [[true, false], [false, true]] 10 "#ff0000" none
        false).map (countOccs "<path") = Except.ok 8 ∧
    (matrix_to_svg [[true, false], [false, true]] 10 "#ff0000" none
        false).map (countOccs "width=\"20\"") = Except.ok 1 ∧
    (matrix_to_svg [[true, false], [false, true]] 10 "#ff0000" none
        false).map (countOccs "height=\"20\"") = Except.ok 1 :=
  ⟨rfl, rfl, rfl, rfl⟩

/-- C8: on the plus-shaped grid the center cell (1,1) has all four
quadrant flags set — it emits its four filled quadrant squares, which
tile the full cell, and no fillet — while each arm-tip cell emits
exactly two rounded-convex fillets and two square quadrants; the full
conversion with rounding mode enabled accordingly contains 12 quadrant
rectangles and 8 fillet arcs (`0 0 1` sweeps) among its paths. -/
theorem C8_plus_shape_classification :
    quadrantsAt plusGrid 1 1 = ⟨true, true, true, true⟩ ∧
    cellPrims plusGrid 1 1 =
      [Prim.quadSquare 1 1 0 0, Prim.quadSquare 1 1 0 1,
       Prim.quadSquare 1 1 1 0, Prim.quadSquare 1 1 1 1] ∧
    (cellPrims plusGrid 0 1).countP isFilletP = 2 ∧
    (cellPrims plusGrid 0 1).countP isQuadSquareP = 2 ∧
    (cellPrims plusGrid 1 0).countP isFilletP = 2 ∧
    (cellPrims plusGrid 1 0).countP isQuadSquareP = 2 ∧
    (cellPrims plusGrid 1 2).countP isFilletP = 2 ∧
    (cellPrims plusGrid 1 2).countP isQuadSquareP = 2 ∧
    (cellPrims plusGrid 2 1).countP isFilletP = 2 ∧
    (cellPrims plusGrid 2 1).countP isQuadSquareP = 2 ∧
    (gridPrims plusGrid 3 3).countP isFilletP = 8 ∧
    (gridPrims plusGrid 3 3).countP isQuadSquareP = 12 ∧
    (matrix_to_svg plusGrid 10 "#000" none true).map (countOccs "<rect") =
      Except.ok 12 := by
  refine ⟨by decide, by decide, by decide, by decide, by decide, by decide,
    by decide, by decide, by decide, by decide, by decide, by decide, rfl⟩

/-- C9: `matrix_to_svg` is deterministic — it is a pure function of its
arguments, so two runs on the same inputs give identical classification
and byte-identical output — and its cell primitives are accumulated in
row-major cell order with the fixed per-cell sub-order of
`cellPrims`. -/
theorem C9_deterministic_row_major (m : List (List Bool)) (cs : Nat)
    (oc : String) (bg : Option String) (r : Bool) :
    matrix_to_svg m cs oc bg r = matrix_to_svg m cs oc bg r ∧
    (∀ i j, quadrantsAt m i j = quadrantsAt m i j) ∧
    gridPrims m m.length (m.headD []).length =
      (rowMajorIdx m.length (m.headD []).length).flatMap
        (fun ij => cellPrims m ij.1 ij.2) :=
  ⟨rfl, fun _ _ => rfl,
    gridPrims_eq_flatMap m m.length (m.headD []).length⟩

/-- C10: the `round` parameter of `matrix_to_svg` is never read, so for
every grid and configuration the call with `round = true` returns the
same result as the call with `round = false`. -/
theorem C10_round_flag_has_no_effect (m : List (List Bool)) (cs : Nat)
    (oc : String) (bg : Option String) :
    matrix_to_svg m cs oc bg true = matrix_to_svg m cs oc bg false :=
  rfl

end Bin2Svg
